import Mathlib

/-!
Shallow embedding of `src/python/ComplianceChecks.py` (class `ComplianceValidator`)
and proofs of the specification claims about it.

Modelling conventions:
* A Python value read from the input dict via `data.get(key)` is a `PyVal`:
  `PyVal.none` stands for both "key missing" and "value is None" (Python's
  `dict.get` makes these indistinguishable), `PyVal.str s` for a `str`, and
  `PyVal.other` for any non-`None`, non-`str` object (int, list, ...), which
  is all `validate_compliance` can distinguish.
* A Python string is a list of `PyChar`, each character abstracted to the
  attributes the code can observe of it: its identity when its codepoint is
  below 128 (`PyChar.ascii`), and otherwise only whether it is a Unicode
  decimal digit (category `Nd`) and, if so, its decimal value
  (`PyChar.extDigit`) — because `_strptime` compiles its regex without
  `re.ASCII`, so `\d` matches any `Nd` character and `int()` converts it,
  while every literal and character class in the `%Y-%m-%d` pattern matches
  ASCII characters only, and string equality against the ASCII literal
  `"ACTIVE"` cannot distinguish two non-`Nd` non-ASCII characters either.
* An instant (`datetime`) is the integer number of microseconds since the
  proleptic-Gregorian epoch (midnight of ordinal day 0); Python `datetime`
  has exactly microsecond resolution.  `datetime.strptime(s, "%Y-%m-%d")`
  yields midnight of the parsed day.  `timedelta.days` floors toward
  negative infinity, i.e. it is `Int.fdiv` by the microseconds of one day.
* `datetime.now()` is modelled by passing the clock reading as an explicit
  argument.  `validate_compliance` calls `datetime.now()` twice (once in the
  date check, once for the result timestamp), so it takes two readings.
* The `isoformat()` string of a timestamp is an injective image of the
  instant, so timestamps are kept as instants.
* Reading `config/compliance_rules.yaml` is modelled by a `ConfigSource`
  argument describing the outcome of the external read: the file may be
  absent (`open` raises `FileNotFoundError`, the only exception the code
  catches), present but unreadable (`open` raises another `OSError`, e.g.
  `PermissionError`, which propagates), present but malformed
  (`yaml.safe_load` raises `YAMLError`, which propagates), or successfully
  parsed.  A successfully parsed document is modelled as an association
  list of rule id to rule definition; Python additionally allows non-mapping
  YAML documents (which make the registry not a mapping at all), so the
  mapping-shaped model understates how far the real code can stray from the
  spec's registry invariant.
-/

/-- One character of a Python `str`, abstracted to the attributes that the
code can observe.  Encoding of a Python string: a codepoint below 128 is
encoded as `ascii c` (its identity matters: the format's literal `-` and
the regex's literal digits and ASCII classes such as `[1-9]` match ASCII
characters only); any other character is encoded as `extDigit d` if it is a
Unicode decimal digit — category `Nd`, matched by `\d` in a pattern
compiled without `re.ASCII` and converted by `int()` with decimal value
`d` — and as `extOther` otherwise.  A value `ascii c` whose codepoint is
128 or above encodes no Python character. -/
inductive PyChar where
  | ascii (c : Char) : PyChar
  | extDigit (d : Fin 10) : PyChar
  | extOther : PyChar
deriving DecidableEq, Repr

/-- A Python string, as the list of its observed characters. -/
abbrev PyStr := List PyChar

/-- The encoding of an all-ASCII Python string literal. -/
def asciiStr (s : String) : PyStr := s.data.map PyChar.ascii

/-- Is this character an ASCII digit `0`-`9`? -/
def PyChar.isAsciiDigit : PyChar → Bool
  | PyChar.ascii c => c.isDigit
  | _ => false

/-- Does `\d` (any Unicode `Nd` character, `re.ASCII` not in effect) match
this character? -/
def PyChar.isNd : PyChar → Bool
  | PyChar.ascii c => c.isDigit
  | PyChar.extDigit _ => true
  | PyChar.extOther => false

/-- The decimal value `int()` assigns to a digit character (unused for
non-digits). -/
def PyChar.digitVal : PyChar → Nat
  | PyChar.ascii c => c.toNat - 48
  | PyChar.extDigit d => d.val
  | PyChar.extOther => 0

/-- `int()` on a captured field of decimal-digit characters, scripts freely
mixed. -/
def ndVal (cs : PyStr) : Nat :=
  cs.foldl (fun a c => 10 * a + c.digitVal) 0

/-- A Python value as observed by `validate_compliance` through `dict.get`. -/
inductive PyVal where
  | none : PyVal
  | str (s : PyStr) : PyVal
  | other : PyVal
deriving DecidableEq, Repr

/-- One violation entry, `{"rule": ..., "description": ...}`. -/
structure Violation where
  rule : String
  description : String
deriving DecidableEq, Repr

/-- The entry appended by the active-status check (lines 39-43). -/
def statusViolation : Violation :=
  { rule := "ECOSOC_RULE_1", description := "Fund is not in active compliance status" }

/-- The entry appended when the review is overdue (lines 48-52). -/
def overdueViolation : Violation :=
  { rule := "ECOSOC_RULE_2", description := "Annual review overdue" }

/-- The entry appended when date parsing raises (lines 53-57). -/
def invalidDateViolation : Violation :=
  { rule := "ECOSOC_RULE_2", description := "Invalid last review date" }

/-- A calendar date as produced by a successful `strptime` parse. -/
structure Date where
  year : Nat
  month : Nat
  day : Nat
deriving DecidableEq, Repr

/-- Gregorian leap-year test, as in Python's `calendar.isleap` used by
`datetime`. -/
def isLeapYear (y : Nat) : Bool :=
  y % 4 == 0 && (y % 100 != 0 || y % 400 == 0)

/-- Days in month `m` of year `y` (months numbered 1..12). -/
def daysInMonth (y m : Nat) : Nat :=
  if m = 2 then (if isLeapYear y then 29 else 28)
  else if m = 4 ∨ m = 6 ∨ m = 9 ∨ m = 11 then 30
  else 31

/-- Split a character list at every ASCII `'-'` (the only character the
format's escaped literal hyphen matches), keeping empty components:
`"a-b"` gives `["a", "b"]`, `""` gives `[""]`. -/
def splitDashes : PyStr → List PyStr
  | [] => [[]]
  | c :: rest =>
    match splitDashes rest with
    | h :: t => if c = PyChar.ascii '-' then [] :: h :: t else (c :: h) :: t
    | [] => [[]]

/-- The year field of `"%Y"`: Python's `_strptime` regex is `\d\d\d\d` —
exactly four decimal-digit characters, non-ASCII Unicode digits included
(the pattern is compiled with `re.IGNORECASE` only, not `re.ASCII`) —
after which `int()` computes the value from the digits' decimal values,
scripts freely mixed. -/
def matchYear (cs : PyStr) : Option Nat :=
  if cs.length = 4 ∧ cs.all PyChar.isNd then some (ndVal cs) else none

/-- The month field of `"%m"`: Python's `_strptime` regex is
`1[0-2]|0[1-9]|[1-9]`.  Every alternative is built from ASCII digit
literals and ASCII character ranges, so the full-string language is exactly
the one- or two-digit ASCII strings with value 1..12 (the non-zero-padded
`"1"` is accepted, a non-ASCII digit is not). -/
def matchMonthField (cs : PyStr) : Option Nat :=
  if cs.all PyChar.isAsciiDigit ∧ 1 ≤ cs.length ∧ cs.length ≤ 2
      ∧ 1 ≤ ndVal cs ∧ ndVal cs ≤ 12 then
    some (ndVal cs)
  else none

/-- The day field of `"%d"`: Python's `_strptime` regex is
`3[01]|[12]\d|0[1-9]|[1-9]`.  The alternatives `3[01]`, `0[1-9]` and
`[1-9]` are ASCII-only, and their union's ASCII language is exactly the
one- or two-digit ASCII strings with value 1..31; but `[12]\d` pairs an
ASCII `1` or `2` with any decimal digit, so an ASCII `1`/`2` followed by a
non-ASCII Unicode digit also matches, and `int()` then yields the value
10..29. -/
def matchDayField (cs : PyStr) : Option Nat :=
  if cs.all PyChar.isAsciiDigit ∧ 1 ≤ cs.length ∧ cs.length ≤ 2
      ∧ 1 ≤ ndVal cs ∧ ndVal cs ≤ 31 then
    some (ndVal cs)
  else
    match cs with
    | [PyChar.ascii c1, PyChar.extDigit d] =>
        if c1 = '1' ∨ c1 = '2' then some (10 * (c1.toNat - 48) + d.val) else none
    | _ => none

/-- `datetime.strptime(s, "%Y-%m-%d")` on a `str` argument.  Since none of
the three field regexes can match `-` (`\d` matches only `Nd` characters),
a full match decomposes `s` at its ASCII hyphens into exactly three field
strings; `_strptime` then constructs `datetime(y, m, d)`, which raises
`ValueError` unless `MINYEAR = 1 ≤ y` and `d` does not exceed the month
length (`d ≥ 1` and `m ≤ 12` are already forced by the regex).  `none`
models the raised `ValueError`. -/
def parseYmd (s : PyStr) : Option Date :=
  match splitDashes s with
  | [ys, ms, ds] =>
    match matchYear ys, matchMonthField ms, matchDayField ds with
    | some y, some m, some d =>
        if 1 ≤ y ∧ d ≤ daysInMonth y m then some ⟨y, m, d⟩ else none
    | _, _, _ => none
  | _ => none

/-- `datetime.strptime(v, "%Y-%m-%d")` on an arbitrary `data.get(...)`
result: a non-`str` argument (including `None` for a missing key) raises
`TypeError`; a `str` that does not match raises `ValueError`.  Both are
caught by the `except (ValueError, TypeError)` clause, so both are modelled
as `none`. -/
def strptimeYmd : PyVal → Option Date
  | PyVal.str s => parseYmd s
  | _ => none

/-- `date.toordinal()`-style day count: days strictly before January 1 of
year `y` in the proleptic Gregorian calendar. -/
def daysBeforeYear (y : Nat) : Nat :=
  365 * (y - 1) + (y - 1) / 4 - (y - 1) / 100 + (y - 1) / 400

/-- Days in year `y` strictly before month `m`. -/
def daysBeforeMonth (y m : Nat) : Nat :=
  ((List.range (m - 1)).map (fun i => daysInMonth y (i + 1))).sum

/-- Python's `date.toordinal()`: `0001-01-01` is ordinal 1. -/
def toordinal (dt : Date) : Nat :=
  daysBeforeYear dt.year + daysBeforeMonth dt.year dt.month + dt.day

/-- Microseconds in a day; `timedelta` normalizes at this resolution. -/
def usPerDay : Int := 86400000000

/-- The instant (microseconds) of midnight of a parsed date, which is what
`strptime` with a date-only format returns. -/
def dateMicros (dt : Date) : Int :=
  (toordinal dt : Int) * usPerDay

/-- `(datetime.now() - last_review).days`: Python's `timedelta.days` floors
toward negative infinity, which is `Int.fdiv`. -/
def elapsedDays (now dateUs : Int) : Int :=
  (now - dateUs).fdiv usPerDay

/-- A rule definition as found in the registry: the shape of the built-in
default rule (`name`/`description`/`severity` strings). -/
structure RuleDef where
  name : String
  description : String
  severity : String
deriving DecidableEq, Repr

/-- The default registry literal at lines 17-24 of the source. -/
def defaultRule : RuleDef :=
  { name := "Active Status Check"
  , description := "Fund must have active compliance status"
  , severity := "HIGH" }

/-- The default rules mapping: exactly one entry, `ECOSOC_RULE_1`. -/
def defaultRules : List (String × RuleDef) :=
  [("ECOSOC_RULE_1", defaultRule)]

/-- Outcome of the external read of `config/compliance_rules.yaml`. -/
inductive ConfigSource where
  | absent : ConfigSource
  | unreadable : ConfigSource
  | malformedYaml : ConfigSource
  | present (doc : List (String × RuleDef)) : ConfigSource
deriving DecidableEq, Repr

/-- Errors that escape `_load_compliance_rules` uncaught. -/
inductive LoadError where
  | osError : LoadError
  | yamlError : LoadError
deriving DecidableEq, Repr

/-- `ComplianceValidator._load_compliance_rules` (lines 9-24): only
`FileNotFoundError` is caught (yielding the default rules); any other
`OSError` from `open`, and any `YAMLError` from `yaml.safe_load`,
propagates.  A successfully parsed document is returned verbatim. -/
def load_compliance_rules : ConfigSource → Except LoadError (List (String × RuleDef))
  | ConfigSource.absent => Except.ok defaultRules
  | ConfigSource.unreadable => Except.error LoadError.osError
  | ConfigSource.malformedYaml => Except.error LoadError.yamlError
  | ConfigSource.present doc => Except.ok doc

/-- The engine state: `self.rules` and `self.validation_timestamp`, both set
in `__init__` and never reassigned. -/
structure ComplianceValidator where
  rules : List (String × RuleDef)
  validation_timestamp : Int
deriving DecidableEq, Repr

/-- `ComplianceValidator.__init__`: loads the rules (propagating any
uncaught load error) and records the construction instant. -/
def ComplianceValidator.mkValidator (cfg : ConfigSource) (now : Int) :
    Except LoadError ComplianceValidator :=
  match load_compliance_rules cfg with
  | Except.ok rs => Except.ok { rules := rs, validation_timestamp := now }
  | Except.error e => Except.error e

/-- `get_compliance_rules` (lines 26-30): returns the registry unmodified. -/
def ComplianceValidator.get_compliance_rules (self : ComplianceValidator) :
    List (String × RuleDef) :=
  self.rules

/-- The input record as observed by `validate_compliance`: the three
`data.get` results it reads. -/
structure ComplianceRecord where
  compliance_status : PyVal
  last_review_date : PyVal
  fund_id : PyVal
deriving DecidableEq, Repr

/-- The result dict of `validate_compliance` (lines 59-64). -/
structure ValidationResult where
  is_compliant : Bool
  violations : List Violation
  fund_id : PyVal
  timestamp : Int
deriving DecidableEq, Repr

/-- The date-check block (lines 45-57): parse; on success append the
overdue violation when the floored whole-day difference exceeds 365; on a
caught `ValueError`/`TypeError` append the invalid-date violation. -/
def dateCheckViolations (v : PyVal) (nowCheck : Int) : List Violation :=
  match strptimeYmd v with
  | some dt => if elapsedDays nowCheck (dateMicros dt) > 365 then [overdueViolation] else []
  | none => [invalidDateViolation]

/-- `validate_compliance` (lines 32-64).  `nowCheck` is the `datetime.now()`
read inside the date check, `nowStamp` the one read for the result
timestamp (the code calls the clock twice).  The method reads nothing from
`self`. -/
def ComplianceValidator.validate_compliance (self : ComplianceValidator)
    (data : ComplianceRecord) (nowCheck nowStamp : Int) : ValidationResult :=
  let violations :=
    (if data.compliance_status ≠ PyVal.str (asciiStr "ACTIVE") then [statusViolation] else [])
      ++ dateCheckViolations data.last_review_date nowCheck
  { is_compliant := violations.length == 0
  , violations := violations
  , fund_id := data.fund_id
  , timestamp := nowStamp }

/-- The report dict of `generate_compliance_report` (lines 66-76).  The
Python float literal `0.95` is modelled as the rational `0.95`. -/
structure ComplianceReport where
  timestamp : Int
  compliance_score : Rat
  violations : List Violation
  rules_checked : Nat
  status : String
deriving DecidableEq, Repr

/-- `generate_compliance_report` (lines 66-76): a constant-shaped snapshot
built from the construction timestamp and the registry size only. -/
def ComplianceValidator.generate_compliance_report (self : ComplianceValidator) :
    ComplianceReport :=
  { timestamp := self.validation_timestamp
  , compliance_score := 0.95
  , violations := []
  , rules_checked := self.rules.length
  , status := "COMPLIANT" }

/-- State-passing form of `validate_compliance`: the method body contains no
assignment to `self`, so the translated state is returned unchanged. -/
def ComplianceValidator.validateS (self : ComplianceValidator)
    (data : ComplianceRecord) (nowCheck nowStamp : Int) :
    ValidationResult × ComplianceValidator :=
  (self.validate_compliance data nowCheck nowStamp, self)

/-- State-passing form of `generate_compliance_report` (no writes to
`self`). -/
def ComplianceValidator.reportS (self : ComplianceValidator) :
    ComplianceReport × ComplianceValidator :=
  (self.generate_compliance_report, self)

/-- State-passing form of `get_compliance_rules` (no writes to `self`). -/
def ComplianceValidator.getRulesS (self : ComplianceValidator) :
    List (String × RuleDef) × ComplianceValidator :=
  (self.get_compliance_rules, self)

/-- One call on the engine's public surface. -/
inductive Op where
  | validate (data : ComplianceRecord) (nowCheck nowStamp : Int) : Op
  | report : Op
  | getRules : Op

/-- The engine state after one call. -/
def stepEngine (e : ComplianceValidator) : Op → ComplianceValidator
  | Op.validate data nc ns => (e.validateS data nc ns).2
  | Op.report => e.reportS.2
  | Op.getRules => e.getRulesS.2

/-- The engine state after a sequence of calls. -/
def runOps (e : ComplianceValidator) : List Op → ComplianceValidator
  | [] => e
  | op :: rest => runOps (stepEngine e op) rest

/-- The sublist of violations carrying rule id `ECOSOC_RULE_1`. -/
def rule1Violations (vs : List Violation) : List Violation :=
  vs.filter (fun v => v.rule == "ECOSOC_RULE_1")

/-- The sublist of violations carrying rule id `ECOSOC_RULE_2`. -/
def rule2Violations (vs : List Violation) : List Violation :=
  vs.filter (fun v => v.rule == "ECOSOC_RULE_2")

/-! Helper lemmas shared by the claim theorems. -/

/-- The violations field of a validation result, by definition. -/
theorem validate_violations (self : ComplianceValidator) (data : ComplianceRecord)
    (nc ns : Int) :
    (self.validate_compliance data nc ns).violations =
      (if data.compliance_status ≠ PyVal.str (asciiStr "ACTIVE") then [statusViolation]
       else [])
        ++ dateCheckViolations data.last_review_date nc := rfl

/-- The status check appends either nothing or exactly `statusViolation`. -/
theorem statusPart_cases (data : ComplianceRecord) :
    (if data.compliance_status ≠ PyVal.str (asciiStr "ACTIVE") then [statusViolation]
     else []) = []
    ∨ (if data.compliance_status ≠ PyVal.str (asciiStr "ACTIVE") then [statusViolation]
       else [])
        = [statusViolation] := by
  by_cases h : data.compliance_status = PyVal.str (asciiStr "ACTIVE")
  · exact Or.inl (if_neg (by simp [h]))
  · exact Or.inr (if_pos h)

/-- The date check appends nothing, the overdue entry, or the invalid entry. -/
theorem dateCheck_cases (v : PyVal) (nc : Int) :
    dateCheckViolations v nc = [] ∨ dateCheckViolations v nc = [overdueViolation]
    ∨ dateCheckViolations v nc = [invalidDateViolation] := by
  unfold dateCheckViolations
  cases strptimeYmd v with
  | none => exact Or.inr (Or.inr rfl)
  | some dt =>
    by_cases h : elapsedDays nc (dateMicros dt) > 365
    · exact Or.inr (Or.inl (if_pos h))
    · exact Or.inl (if_neg h)

/-- A fixed engine used to instantiate claims at concrete inputs
(`validate_compliance` reads nothing from the engine state). -/
def eng0 : ComplianceValidator := { rules := defaultRules, validation_timestamp := 0 }

/-- A record with a non-`"ACTIVE"` status. -/
def recSuspended : ComplianceRecord :=
  { compliance_status := PyVal.str (asciiStr "SUSPENDED")
  , last_review_date := PyVal.str (asciiStr "2024-01-01")
  , fund_id := PyVal.str (asciiStr "X") }

/-- A record with status exactly `"ACTIVE"`. -/
def recActive : ComplianceRecord :=
  { compliance_status := PyVal.str (asciiStr "ACTIVE")
  , last_review_date := PyVal.str (asciiStr "2024-01-01")
  , fund_id := PyVal.none }

/-- The engine built at instant 5 with the config file absent. -/
def engAbs5 : ComplianceValidator := { rules := defaultRules, validation_timestamp := 5 }

/-- A concrete sequence of calls: one validation, one registry read, one
report. -/
def ops0 : List Op := [Op.validate recSuspended 3 4, Op.getRules, Op.report]

/-- No single call writes the engine state. -/
theorem stepEngine_eq (e : ComplianceValidator) (op : Op) : stepEngine e op = e := by
  cases op <;> rfl

/-- No sequence of calls writes the engine state. -/
theorem runOps_eq (e : ComplianceValidator) (ops : List Op) : runOps e ops = e := by
  induction ops with
  | nil => rfl
  | cons op rest ih => rw [runOps, stepEngine_eq]; exact ih

/-! The claim theorems. -/

/-- C1: for every record, if `compliance_status` is missing or any value
other than the exact string `"ACTIVE"`, the result's violations contain
`{rule: "ECOSOC_RULE_1", description: "Fund is not in active compliance
status"}`; if it is exactly `"ACTIVE"`, no `ECOSOC_RULE_1` violation is
present. -/
theorem C1_active_status (self : ComplianceValidator) (data : ComplianceRecord)
    (nc ns : Int) :
    (data.compliance_status ≠ PyVal.str (asciiStr "ACTIVE") →
      statusViolation ∈ (self.validate_compliance data nc ns).violations) ∧
    (data.compliance_status = PyVal.str (asciiStr "ACTIVE") →
      rule1Violations (self.validate_compliance data nc ns).violations = []) := by
  constructor
  · intro h
    rw [validate_violations, if_pos h]
    exact List.mem_append_left _ (List.mem_singleton.mpr rfl)
  · intro h
    rw [rule1Violations, validate_violations, if_neg (by simp [h]), List.nil_append]
    rcases dateCheck_cases data.last_review_date nc with hc | hc | hc <;> rw [hc] <;> decide

/-- C1 witness: the theorem applied to a suspended record and to an active
record. -/
theorem C1_active_status_witness :
    statusViolation ∈ (eng0.validate_compliance recSuspended 0 0).violations ∧
    rule1Violations (eng0.validate_compliance recActive 0 0).violations = [] :=
  ⟨(C1_active_status eng0 recSuspended 0 0).1 (by decide),
   (C1_active_status eng0 recActive 0 0).2 rfl⟩

/-- C4: for every record, `is_compliant` is true iff the violations list is
empty; every `ECOSOC_RULE_1` violation precedes every `ECOSOC_RULE_2`
violation (the list is the rule-1 part followed by the rule-2 part); and
`fund_id` is the input's `fund_id` value verbatim (`None` when the key is
missing). -/
theorem C4_result_assembly (self : ComplianceValidator) (data : ComplianceRecord)
    (nc ns : Int) :
    ((self.validate_compliance data nc ns).is_compliant = true ↔
      (self.validate_compliance data nc ns).violations = []) ∧
    rule1Violations (self.validate_compliance data nc ns).violations
        ++ rule2Violations (self.validate_compliance data nc ns).violations
      = (self.validate_compliance data nc ns).violations ∧
    (self.validate_compliance data nc ns).fund_id = data.fund_id := by
  refine ⟨?_, ?_, rfl⟩
  · show ((self.validate_compliance data nc ns).violations.length == 0) = true ↔ _
    simp [List.length_eq_zero]
  · rw [rule1Violations, rule2Violations, validate_violations]
    rcases statusPart_cases data with hs | hs <;>
      rcases dateCheck_cases data.last_review_date nc with hc | hc | hc <;>
      rw [hs, hc] <;> decide

/-- C5: after any sequence of prior calls, `generate_compliance_report`
returns status `"COMPLIANT"`, score `0.95`, an empty violations list,
`rules_checked` equal to the current registry size, and the engine's
construction timestamp. -/
theorem C5_report_constant (cfg : ConfigSource) (now0 : Int)
    (e : ComplianceValidator) (ops : List Op)
    (h : ComplianceValidator.mkValidator cfg now0 = Except.ok e) :
    (runOps e ops).generate_compliance_report =
      { timestamp := now0
      , compliance_score := 0.95
      , violations := []
      , rules_checked := ((runOps e ops).get_compliance_rules).length
      , status := "COMPLIANT" } := by
  have hts : e.validation_timestamp = now0 := by
    unfold ComplianceValidator.mkValidator at h
    cases hload : load_compliance_rules cfg <;> rw [hload] at h
    · exact absurd h (by simp)
    · cases h
      rfl
  have hrun : runOps e ops = e := runOps_eq e ops
  rw [hrun, ComplianceValidator.generate_compliance_report,
    ComplianceValidator.get_compliance_rules, hts]

/-- C5 witness: the theorem applied to the engine built at instant 5 with
the config file absent, after one validation call, one registry read, and
one report call. -/
theorem C5_report_constant_witness :
    (runOps engAbs5 ops0).generate_compliance_report =
      { timestamp := 5
      , compliance_score := 0.95
      , violations := []
      , rules_checked := ((runOps engAbs5 ops0).get_compliance_rules).length
      , status := "COMPLIANT" } :=
  C5_report_constant ConfigSource.absent 5 engAbs5 ops0 rfl

/-- C6 counterexample: a configuration document that is present and parses
to an empty mapping is stored verbatim, so the registry is empty and
`get_compliance_rules` returns a mapping with no entries. -/
theorem C6_counterexample :
    ComplianceValidator.mkValidator (ConfigSource.present []) 7 =
      Except.ok { rules := [], validation_timestamp := 7 } ∧
    ComplianceValidator.get_compliance_rules { rules := [], validation_timestamp := 7 }
      = [] := ⟨rfl, rfl⟩

/-- C6 (amended): the registry is non-empty when the configuration document
is absent, in which case it is exactly the single default rule
`ECOSOC_RULE_1`; when a document is present, its parsed content is stored
verbatim and may be empty. -/
theorem C6_registry_fallback (now : Int) (doc : List (String × RuleDef)) :
    ComplianceValidator.mkValidator ConfigSource.absent now =
      Except.ok { rules := defaultRules, validation_timestamp := now } ∧
    ComplianceValidator.get_compliance_rules
      { rules := defaultRules, validation_timestamp := now } = defaultRules ∧
    defaultRules = [("ECOSOC_RULE_1", defaultRule)] ∧
    defaultRules.length = 1 ∧
    ComplianceValidator.mkValidator (ConfigSource.present doc) now =
      Except.ok { rules := doc, validation_timestamp := now } :=
  ⟨rfl, rfl, rfl, rfl, rfl⟩

/-- C7 counterexample: a present-but-unreadable configuration document (an
`OSError` other than `FileNotFoundError`, e.g. `PermissionError`) is not
caught: construction surfaces the error instead of falling back. -/
theorem C7_counterexample :
    ComplianceValidator.mkValidator ConfigSource.unreadable 0 =
      Except.error LoadError.osError := rfl

/-- C7 (amended): when the configuration document is absent
(`FileNotFoundError`), construction surfaces no error and falls back to a
registry containing exactly one rule with id `ECOSOC_RULE_1`, name
`"Active Status Check"`, description `"Fund must have active compliance
status"`, and severity `HIGH`; read failures other than absence
propagate. -/
theorem C7_fallback_on_absent (now : Int) :
    load_compliance_rules ConfigSource.absent =
      Except.ok [("ECOSOC_RULE_1",
        { name := "Active Status Check"
        , description := "Fund must have active compliance status"
        , severity := "HIGH" })] ∧
    ComplianceValidator.mkValidator ConfigSource.absent now =
      Except.ok { rules := defaultRules, validation_timestamp := now } ∧
    load_compliance_rules ConfigSource.unreadable = Except.error LoadError.osError ∧
    load_compliance_rules ConfigSource.malformedYaml = Except.error LoadError.yamlError :=
  ⟨rfl, rfl, rfl, rfl⟩

/-- C8: neither `validate_compliance` nor `generate_compliance_report` (nor
`get_compliance_rules`) writes the engine state: after any single call and
after any sequence of calls, the registry and the construction timestamp
are identical to their values before. -/
theorem C8_engine_state_frame (e : ComplianceValidator) (data : ComplianceRecord)
    (nc ns : Int) (ops : List Op) :
    (e.validateS data nc ns).2 = e ∧
    e.reportS.2 = e ∧
    e.getRulesS.2 = e ∧
    (runOps e ops).rules = e.rules ∧
    (runOps e ops).validation_timestamp = e.validation_timestamp :=
  ⟨rfl, rfl, rfl, by rw [runOps_eq], by rw [runOps_eq]⟩

/-- C10: for every record, the violations list has at most two entries,
each rule id occurs at most once, and the two `ECOSOC_RULE_2` descriptions
are mutually exclusive. -/
theorem C10_violation_shape (self : ComplianceValidator) (data : ComplianceRecord)
    (nc ns : Int) :
    (self.validate_compliance data nc ns).violations.length ≤ 2 ∧
    (rule1Violations (self.validate_compliance data nc ns).violations).length ≤ 1 ∧
    (rule2Violations (self.validate_compliance data nc ns).violations).length ≤ 1 ∧
    ¬(overdueViolation ∈ (self.validate_compliance data nc ns).violations ∧
      invalidDateViolation ∈ (self.validate_compliance data nc ns).violations) := by
  rw [rule1Violations, rule2Violations, validate_violations]
  rcases statusPart_cases data with hs | hs <;>
    rcases dateCheck_cases data.last_review_date nc with hc | hc | hc <;>
    rw [hs, hc] <;> decide
